import Mathlib

/-!
# A shallow embedding of the sanic-macrobase request pipeline

This file models the two source modules of the repository:

* `sanic_macrobase/exceptions.py` — a process-wide registry mapping
  exception types to resolver functions, with an exact-type fast path and
  an insertion-order ancestor scan (`register_exception_handler`,
  `get_exception_handler`, the pre-registered `_sanic_exceptions` resolver).
* `sanic_macrobase/endpoint.py` — body aggregation from the several request
  sources (`params_from_dictparams`, `import_body_*`, `handle`) and the
  dispatch lifecycle (`_method`, `_before_method`, `_after_method`,
  `_handle_method_exceptions`, `make_response_json`).

Python dicts are modelled as insertion-ordered association lists with
unique keys; `d[k] = v` replaces the value of an existing key in place and
otherwise appends.  Python exceptions are modelled with `Except`/`Option`
results.  Exception classes are modelled by an `ExcType` carrying the class
name and the list of names of the class and all its ancestors, so that
`issubclass`/`isinstance` become list membership.
-/

/-! ## Ordered dictionaries (Python `dict`) -/

/-- Python `d[k] = v` on an insertion-ordered dict: if the key is present
its value is replaced in place, otherwise the pair is appended at the end. -/
def dictInsert [BEq κ] : List (κ × α) → κ → α → List (κ × α)
  | [], k, v => [(k, v)]
  | p :: rest, k, v =>
    if p.1 == k then (k, v) :: rest else p :: dictInsert rest k v

/-- Python `d.update(src)`: assign every pair of `src`, in order, into `d`. -/
def dictUpdate [BEq κ] (d src : List (κ × α)) : List (κ × α) :=
  src.foldl (fun a p => dictInsert a p.1 p.2) d

theorem dictInsert_of_not_mem [BEq κ] [LawfulBEq κ] {d : List (κ × α)} {k : κ} (v : α)
    (h : k ∉ d.map Prod.fst) : dictInsert d k v = d ++ [(k, v)] := by
  induction d with
  | nil => rfl
  | cons p rest ih =>
    simp only [List.map_cons, List.mem_cons, not_or] at h
    have hne : (p.1 == k) = false := beq_eq_false_iff_ne.2 (fun he => h.1 he.symm)
    simp [dictInsert, hne, ih h.2]

theorem find?_dictInsert_self [BEq κ] [LawfulBEq κ] (d : List (κ × α)) (k : κ) (v : α) :
    (dictInsert d k v).find? (fun p => p.1 == k) = some (k, v) := by
  induction d with
  | nil => simp [dictInsert]
  | cons p rest ih =>
    by_cases hpk : p.1 == k
    · simp [dictInsert, hpk]
    · simp only [Bool.not_eq_true] at hpk
      simp [dictInsert, hpk, ih]

theorem any_dictInsert_self [BEq κ] [LawfulBEq κ] (d : List (κ × α)) (k : κ) (v : α) :
    (dictInsert d k v).any (fun p => p.1 == k) = true := by
  induction d with
  | nil => simp [dictInsert]
  | cons p rest ih =>
    by_cases hpk : p.1 == k
    · simp [dictInsert, hpk]
    · simp only [Bool.not_eq_true] at hpk
      simp [dictInsert, hpk, ih]

theorem keys_dictInsert_of_mem [BEq κ] [LawfulBEq κ] {d : List (κ × α)} {k : κ} (v : α)
    (h : d.any (fun p => p.1 == k) = true) :
    (dictInsert d k v).map Prod.fst = d.map Prod.fst := by
  induction d with
  | nil => simp at h
  | cons p rest ih =>
    by_cases hpk : p.1 == k
    · simp [dictInsert, hpk, eq_of_beq hpk]
    · simp only [Bool.not_eq_true] at hpk
      simp only [List.any_cons, hpk, Bool.false_or] at h
      simp [dictInsert, hpk, ih h]

/-- Folding Python dict assignments over pairwise-fresh keys just appends the
transformed pairs, in order. -/
theorem foldl_dictInsert_eq_map [BEq κ] [LawfulBEq κ] (tr : κ × α → β) :
    ∀ (L : List (κ × α)) (acc : List (κ × β)),
      (acc.map Prod.fst ++ L.map Prod.fst).Nodup →
      L.foldl (fun d p => dictInsert d p.1 (tr p)) acc
        = acc ++ L.map (fun p => (p.1, tr p)) := by
  intro L
  induction L with
  | nil => simp
  | cons q rest ih =>
    intro acc hnd
    have hq : q.1 ∉ acc.map Prod.fst := by
      intro hmem
      rcases List.nodup_append.1 hnd with ⟨_, _, hdisj⟩
      exact hdisj hmem (by simp)
    have hstep : dictInsert acc q.1 (tr q) = acc ++ [(q.1, tr q)] :=
      dictInsert_of_not_mem _ hq
    have hnd' : ((acc ++ [(q.1, tr q)]).map Prod.fst ++ rest.map Prod.fst).Nodup := by
      simpa [List.append_assoc] using hnd
    calc (q :: rest).foldl (fun d p => dictInsert d p.1 (tr p)) acc
        = rest.foldl (fun d p => dictInsert d p.1 (tr p)) (acc ++ [(q.1, tr q)]) := by
          simp [List.foldl_cons, hstep]
      _ = (acc ++ [(q.1, tr q)]) ++ rest.map (fun p => (p.1, tr p)) := ih _ hnd'
      _ = acc ++ (q :: rest).map (fun p => (p.1, tr p)) := by simp

/-! ## Exception classes and instances -/

/-- A Python exception class, identified by its name; `mro` lists the names
of the class itself and of all its ancestor classes, so that
`issubclass c k` is `k.name ∈ c.mro`. -/
structure ExcType where
  name : String
  mro : List String
deriving DecidableEq, Repr

/-- Python `issubclass(c, k)` under the `ExcType` model. -/
def issubclass (c k : ExcType) : Bool := c.mro.contains k.name

/-- A raised exception instance: its runtime class, its `str(...)` rendering,
and the `status_code` attribute that `SanicException` instances carry. -/
structure ExcInstance where
  cls : ExcType
  msg : String
  status_code : Int
deriving DecidableEq, Repr

/-- The argument type of `get_exception_handler`
(`Union[Exception, Type[Exception]]`): either an exception instance or an
exception class. -/
inductive ExcTyping where
  | inst : ExcInstance → ExcTyping
  | cls : ExcType → ExcTyping
deriving DecidableEq, Repr

/-- `exception.__class__`, with the source's `if exc_cls is type` fix-up that
replaces the metaclass by the class argument itself. -/
def exc_class : ExcTyping → ExcType
  | .inst e => e.cls
  | .cls c => c

/-- Python `isinstance(exception, key)` for the two shapes of the argument:
an instance is an instance of every class in its MRO; an exception class is
not itself an instance of any exception class. -/
def isinstance_chk : ExcTyping → ExcType → Bool
  | .inst e, k => issubclass e.cls k
  | .cls _, _ => false

/-! ## Values and responses -/

/-- A sanic multipart file object (`file.type`, `file.body`, `file.name`). -/
structure FileItem where
  type : String
  body : String
  name : String
deriving DecidableEq, Repr

/-- Python values as they appear in request payloads, aggregated bodies and
JSON response bodies.  `none` is Python `None`; `file` is a raw sanic
`File` object. -/
inductive Val where
  | str : String → Val
  | int : Int → Val
  | none : Val
  | list : List Val → Val
  | dict : List (String × Val) → Val
  | file : FileItem → Val

/-- An aggregated request body / JSON payload: an insertion-ordered dict. -/
abbrev Body := List (String × Val)

/-- A produced HTTP response: status, JSON body and response headers. -/
structure Response where
  status : Val
  body : Val
  headers : List (String × String)

/-- The reason phrases of `http.HTTPStatus` for the codes this code base
produces; for codes outside the table Python would raise `ValueError`, a
path none of the modelled call sites reaches (they always pass a message). -/
def http_status_phrase : Val → String
  | Val.int 200 => "OK"
  | Val.int 400 => "Bad Request"
  | Val.int 404 => "Not Found"
  | Val.int 405 => "Method Not Allowed"
  | Val.int 500 => "Internal Server Error"
  | _ => ""

/-- `SanicEndpoint.make_response_json(code, message, data, error_code)` with
the correlation id `rid` stamped into the headers: if `data` is not `None`
it is returned verbatim with `code`; otherwise the body is synthesized as
`{code: error_code ?? code, message: message ?? phrase(code)}`. -/
def make_response_json (rid : String) (code message data error_code : Val) : Response :=
  let headers := [("x-cross-request-id", rid)]
  match data with
  | Val.none =>
    let message :=
      match message with
      | Val.none => Val.str (http_status_phrase code)
      | m => m
    let error_code :=
      match error_code with
      | Val.none => code
      | ec => ec
    { status := code, body := Val.dict [("code", error_code), ("message", message)],
      headers := headers }
  | d => { status := code, body := d, headers := headers }

/-! ## The exception-handler registry (`exceptions.py`) -/

/-- A registered resolver.  `id` is an identity tag so distinct resolver
functions can be told apart in statements; `run` is the resolver body,
returning the tuple of values it would return (as a list, so that
mis-sized tuples — the `_sanic_exceptions` 3-tuple — are representable). -/
structure Handler where
  id : Nat
  run : ExcInstance → List Val

/-- The `_exception_handlers` dict: exception class → resolver,
insertion-ordered with in-place overwrite. -/
abbrev Registry := List (ExcType × Handler)

/-- `register_exception_handler(*exceptions)(func)`: assign `func` into the
dict under every listed exception class. -/
def register_exception_handler (exceptions : List ExcType) (func : Handler)
    (reg : Registry) : Registry :=
  exceptions.foldl (fun r exception => dictInsert r exception func) reg

/-- The `for key, handler in _exception_handlers.items()` loop of
`get_exception_handler`, threading the `default` variable: return the first
entry whose class the exception is an instance of; remember the first
entry whose class `exc_cls` is a subclass of as `default`; return `default`
when the loop ends. -/
def get_handler_loop (exception : ExcTyping) (exc_cls : ExcType) :
    Registry → Option Handler → Option Handler
  | [], default => default
  | (key, handler) :: rest, default =>
    if isinstance_chk exception key then some handler
    else if default.isNone && issubclass exc_cls key then
      get_handler_loop exception exc_cls rest (some handler)
    else get_handler_loop exception exc_cls rest default

/-- `get_exception_handler(exception)`: exact-class fast path through the
dict, then the insertion-order scan. -/
def get_exception_handler (reg : Registry) (exception : ExcTyping) : Option Handler :=
  let exc_cls := exc_class exception
  match reg.find? (fun p => p.1 == exc_cls) with
  | some p => some p.2
  | none => get_handler_loop exception exc_cls reg none

/-- The `SanicException` class (ancestor of all sanic errors). -/
def SanicExceptionType : ExcType :=
  { name := "SanicException", mro := ["SanicException", "Exception", "BaseException"] }

/-- `RoutingErrorException`, declared in `exceptions.py` as a
`SanicException` subclass. -/
def RoutingErrorExceptionType : ExcType :=
  { name := "RoutingErrorException",
    mro := ["RoutingErrorException", "SanicException", "Exception", "BaseException"] }

/-- The `_sanic_exceptions` resolver: `return exc.status_code, str(exc), None`
— a 3-tuple. -/
def _sanic_exceptions : Handler :=
  { id := 0, run := fun exc => [Val.int exc.status_code, Val.str exc.msg, Val.none] }

/-- The `_exception_handlers` dict as it stands after importing
`exceptions.py`: the decorator has registered `_sanic_exceptions` for
`SanicException`. -/
def _exception_handlers : Registry :=
  register_exception_handler [SanicExceptionType] _sanic_exceptions []

/-! ## Resolution lemmas -/

/-- For an exception instance, `isinstance(e, key)` and
`issubclass(e.__class__, key)` coincide, so the loop's `default` variable is
never consulted: the scan returns the first insertion-order entry whose
class the instance matches, and `none` past the end. -/
theorem get_handler_loop_inst_eq_find? (e : ExcInstance) :
    ∀ reg : Registry,
      get_handler_loop (.inst e) e.cls reg Option.none
        = (reg.find? (fun p => issubclass e.cls p.1)).map Prod.snd := by
  intro reg
  induction reg with
  | nil => rfl
  | cons p rest ih =>
    rcases p with ⟨key, handler⟩
    by_cases hk : issubclass e.cls key
    · simp [get_handler_loop, isinstance_chk, hk, List.find?]
    · simp only [Bool.not_eq_true] at hk
      simp [get_handler_loop, isinstance_chk, hk, List.find?, ih]

/-! ## Request views and body aggregation (`endpoint.py`) -/

/-- The value stored under one key of the `request.files` multimap: sanic
normally stores a list of `File` objects, but the source also guards for a
bare non-list value. -/
inductive FilesVal where
  | list : List FileItem → FilesVal
  | single : FileItem → FilesVal

/-- The read-only request view consumed by `SanicEndpoint`: `none` models a
Python `None` attribute, multimaps are insertion-ordered dicts. -/
structure Request where
  method : String
  content_type : String
  match_info : Option (List (String × Val))
  json : Option (List (String × Val))
  args : Option (List (String × Val))
  files : Option (List (String × FilesVal))
  form : Option (List (String × Val))
  headers : List (String × String)

/-- Python `needle in haystack` on lists (substring scan). -/
def listInfix [BEq α] : List α → List α → Bool
  | needle, [] => needle.isEmpty
  | needle, a :: rest => needle.isPrefixOf (a :: rest) || listInfix needle rest

/-- Python `needle in haystack` on strings. -/
def strContains (haystack needle : String) : Bool :=
  listInfix needle.toList haystack.toList

/-- Python `s.lower()`, character by character. -/
def strToLower (s : String) : String := String.mk (s.toList.map Char.toLower)

/-- The in-loop collapsing step of `params_from_dictparams`:
`if isinstance(value, list) and len(value) == 1: value = value[0]`. -/
def collapse_single : Val → Val
  | Val.list [v] => v
  | value => value

/-- `SanicEndpoint.params_from_dictparams(params)`: rebuild the dict,
collapsing every singleton-list value to its single element. -/
def params_from_dictparams (params : List (String × Val)) : Body :=
  params.foldl (fun args p => dictInsert args p.1 (collapse_single p.2)) []

/-- `SanicEndpoint.import_body_match_info(request)`. -/
def import_body_match_info (request : Request) : Body :=
  match request.match_info with
  | some mi => mi
  | none => []

/-- `SanicEndpoint.import_body_json(request)`: the JSON body, only when the
content type contains `application/json` and the body is not `None`. -/
def import_body_json (request : Request) : Body :=
  if strContains request.content_type "application/json" then
    match request.json with
    | some j => j
    | none => []
  else []

/-- `SanicEndpoint.import_body_args(request)`: collapsed query arguments,
only for non-POST requests with a non-empty `args` multimap. -/
def import_body_args (request : Request) : Body :=
  if request.method != "POST" then
    match request.args with
    | some args => if args.length > 0 then params_from_dictparams args else []
    | none => []
  else []

/-- `file.type, file.body, file.name` projected into the dict that the
files step builds for each list element. -/
def file_to_dict (f : FileItem) : Val :=
  Val.dict [("type", Val.str f.type), ("body", Val.str f.body), ("name", Val.str f.name)]

/-- Embed one `request.files` slot back into a plain value. -/
def files_val_to_val : FilesVal → Val
  | .list items => Val.list (items.map Val.file)
  | .single f => Val.file f

/-- The raw `request.files` multimap as a value (what the source attaches
for a non-list slot). -/
def files_to_val (fs : List (String × FilesVal)) : Val :=
  Val.dict (fs.map (fun p => (p.1, files_val_to_val p.2)))

/-- The per-key branch of `import_body_files`: a list value is projected
item-wise to `{type, body, name}` dicts; any other value makes the entry
point at the whole raw `request.files` multimap. -/
def file_entry_val (fs : List (String × FilesVal)) : FilesVal → Val
  | .list items => Val.list (items.map file_to_dict)
  | .single _ => files_to_val fs

/-- `SanicEndpoint.import_body_files(request)`. -/
def import_body_files (request : Request) : Body :=
  match request.files with
  | some fs =>
    if fs.length > 0 then
      fs.foldl (fun files p => dictInsert files p.1 (file_entry_val fs p.2)) []
    else []
  | none => []

/-- `SanicEndpoint.import_body_form(request)`: form fields, collapsed only
under a `multipart/form-data` content type. -/
def import_body_form (request : Request) : Body :=
  match request.form with
  | some form =>
    if form.length > 0 then
      if strContains request.content_type "multipart/form-data" then
        params_from_dictparams form
      else form
    else []
  | none => []

/-- `SanicEndpoint.import_body_headers(request)`: only headers whose name
starts (case-insensitively) with `x-`. -/
def import_body_headers (request : Request) : Body :=
  request.headers.foldl
    (fun headers h =>
      if strToLower (h.1.take 2) == "x-" then dictInsert headers h.1 (Val.str h.2)
      else headers) []

/-- The six `body.update(...)` steps of `SanicEndpoint.handle`, before the
caller appends the `auth` key. -/
def aggregate_body (request : Request) : Body :=
  let body : Body := []
  let body := dictUpdate body (import_body_match_info request)
  let body := dictUpdate body (import_body_json request)
  let body := dictUpdate body (import_body_args request)
  let body := dictUpdate body (import_body_files request)
  let body := dictUpdate body (import_body_form request)
  let body := dictUpdate body (import_body_headers request)
  body

/-- `SanicEndpoint.handle`: aggregate, then `body['auth'] = auth`. -/
def handle_body (request : Request) (auth : Val) : Body :=
  dictInsert (aggregate_body request) "auth" auth

/-! ## The dispatch lifecycle (`endpoint.py`) -/

/-- One recorded call of a hook or of the verb handler, with the arguments
it received. -/
inductive CallEvent where
  | beforeCall : Nat → Request → Body → CallEvent
  | handlerCall : Request → Body → CallEvent
  | afterCall : Nat → Request → CallEvent

/-- An endpoint instance: its `method_<verb>` members keyed by verb, the
`_get_before_methods()` list and the `_get_after_methods()` list.  A hook
returning `some e` raises the exception `e`; a verb handler returns either
a response or a raised exception. -/
structure SanicEndpoint where
  verb_handlers : List (String × (Request → Body → Except ExcInstance Response))
  before_methods : List (Request → Body → Option ExcInstance)
  after_methods : List (Request → Option ExcInstance)

/-- The `for func in self._get_before_methods(): await func(request, body)`
loop: run hooks in order, recording each call; stop at the first raise. -/
def before_method_go (request : Request) (body : Body) :
    Nat → List (Request → Body → Option ExcInstance) →
    List CallEvent × Option ExcInstance
  | _, [] => ([], Option.none)
  | i, f :: rest =>
    match f request body with
    | some e => ([CallEvent.beforeCall i request body], some e)
    | Option.none =>
      let r := before_method_go request body (i + 1) rest
      (CallEvent.beforeCall i request body :: r.1, r.2)

/-- `SanicEndpoint._before_method`. -/
def _before_method (ep : SanicEndpoint) (request : Request) (body : Body) :
    List CallEvent × Option ExcInstance :=
  before_method_go request body 0 ep.before_methods

/-- The `for func in self._get_after_methods(): await func(request)` loop. -/
def after_method_go (request : Request) :
    Nat → List (Request → Option ExcInstance) → List CallEvent × Option ExcInstance
  | _, [] => ([], Option.none)
  | i, f :: rest =>
    match f request with
    | some e => ([CallEvent.afterCall i request], some e)
    | Option.none =>
      let r := after_method_go request (i + 1) rest
      (CallEvent.afterCall i request :: r.1, r.2)

/-- `SanicEndpoint._after_method`: after-hooks receive only the request. -/
def _after_method (ep : SanicEndpoint) (request : Request) :
    List CallEvent × Option ExcInstance :=
  after_method_go request 0 ep.after_methods

/-- An error escaping `_method` uncaught: the `ValueError` raised when
unpacking a resolver tuple whose size is not 4 (carrying the actual size),
or an exception raised by an after-hook. -/
inductive DispatchError where
  | unpack : Nat → DispatchError
  | afterHook : ExcInstance → DispatchError
deriving DecidableEq, Repr

/-- `SanicEndpoint._handle_method_exceptions(exception)`: resolve a handler;
with none, fall back to `code=500, message=str(exception), data=None`; with
one, destructure its result into `code, error_code, message, data` — which
raises (`DispatchError.unpack`) unless the tuple has exactly 4 items. -/
def _handle_method_exceptions (rid : String) (reg : Registry) (exception : ExcInstance) :
    Except DispatchError Response :=
  match get_exception_handler reg (.inst exception) with
  | some handler =>
    match handler.run exception with
    | [code, error_code, message, data] =>
      Except.ok (make_response_json rid code message data error_code)
    | vals => Except.error (DispatchError.unpack vals.length)
  | Option.none =>
    Except.ok (make_response_json rid (Val.int 500) (Val.str exception.msg) Val.none Val.none)

/-- The `try ... except Exception as e: ...` region of `_method`: before
hooks, then the verb handler; any raised exception is routed through
`_handle_method_exceptions`. -/
def method_protected (rid : String) (reg : Registry) (ep : SanicEndpoint)
    (request : Request) (body : Body)
    (func : Request → Body → Except ExcInstance Response) :
    List CallEvent × Except DispatchError Response :=
  match _before_method ep request body with
  | (evts, some e) => (evts, _handle_method_exceptions rid reg e)
  | (evts, Option.none) =>
    match func request body with
    | Except.ok resp => (evts ++ [CallEvent.handlerCall request body], Except.ok resp)
    | Except.error e =>
      (evts ++ [CallEvent.handlerCall request body], _handle_method_exceptions rid reg e)

/-- The `finally: await self._after_method(request)` block: after-hooks run
whatever the protected region produced; a raise in an after-hook replaces
the pending result and propagates. -/
def method_finally (ep : SanicEndpoint) (request : Request)
    (tr : List CallEvent × Except DispatchError Response) :
    List CallEvent × Except DispatchError Response :=
  match _after_method ep request with
  | (aevts, some e2) => (tr.1 ++ aevts, Except.error (DispatchError.afterHook e2))
  | (aevts, Option.none) => (tr.1 ++ aevts, tr.2)

/-- `SanicEndpoint._method(request, body)` (with the fresh correlation id
`rid` that `set_request_id()` installs at entry): look up
`method_<lower(request.method)>`; without one, answer 405 without running
any hook; with one, run the protected region and then the finally block.
The first component records every hook/handler call made. -/
def _method (rid : String) (reg : Registry) (ep : SanicEndpoint)
    (request : Request) (body : Body) :
    List CallEvent × Except DispatchError Response :=
  match ep.verb_handlers.find? (fun p => p.1 == strToLower request.method) with
  | some p => method_finally ep request (method_protected rid reg ep request body p.2)
  | Option.none =>
    ([], Except.ok (make_response_json rid (Val.int 405) (Val.str "Method Not Allowed")
      Val.none Val.none))

/-! ## Concrete fixtures used by witnesses and counterexamples -/

/-- A user exception class `Base` extending `Exception`. -/
def BaseExcType : ExcType :=
  { name := "Base", mro := ["Base", "Exception", "BaseException"] }

/-- A user exception class `Specific` extending `Base`. -/
def SpecificExcType : ExcType :=
  { name := "Specific", mro := ["Specific", "Base", "Exception", "BaseException"] }

/-- A user exception class `SubSpecific` extending `Specific`. -/
def SubSpecificExcType : ExcType :=
  { name := "SubSpecific",
    mro := ["SubSpecific", "Specific", "Base", "Exception", "BaseException"] }

/-- A user exception class unrelated to `Base`. -/
def UnrelatedExcType : ExcType :=
  { name := "Unrelated", mro := ["Unrelated", "Exception", "BaseException"] }

/-- A well-formed (4-tuple) resolver with identity tag 1. -/
def handlerA : Handler :=
  { id := 1, run := fun exc => [Val.int 500, Val.int 500, Val.str exc.msg, Val.none] }

/-- A well-formed (4-tuple) resolver with identity tag 2. -/
def handlerB : Handler :=
  { id := 2, run := fun exc => [Val.int 400, Val.int 400, Val.str exc.msg, Val.none] }

/-- A well-formed (4-tuple) resolver with identity tag 3. -/
def handlerC : Handler :=
  { id := 3, run := fun exc => [Val.int 403, Val.int 403, Val.str exc.msg, Val.none] }

/-- A raised instance of `Base`. -/
def baseInstance : ExcInstance := { cls := BaseExcType, msg := "base boom", status_code := 500 }

/-- A raised instance of `Specific`. -/
def specificInstance : ExcInstance :=
  { cls := SpecificExcType, msg := "specific boom", status_code := 400 }

/-- A raised instance of `SubSpecific`. -/
def subSpecificInstance : ExcInstance :=
  { cls := SubSpecificExcType, msg := "subspecific boom", status_code := 404 }

/-- A raised `SanicException` instance. -/
def sanicInstance : ExcInstance :=
  { cls := SanicExceptionType, msg := "sanic boom", status_code := 400 }

/-- The registry of the C1 scenario: `Base ↦ handlerA` (resolverBase)
registered first, then `Specific ↦ handlerB` (resolverSpecific). -/
def c1_registry : Registry :=
  register_exception_handler [SpecificExcType] handlerB
    (register_exception_handler [BaseExcType] handlerA [])

/-- The registry of the C7 counterexample: `Base ↦ handlerA`, then
`Unrelated ↦ handlerB`, then `Base` re-registered to `handlerC`. -/
def c7_registry : Registry :=
  register_exception_handler [BaseExcType] handlerC
    (register_exception_handler [UnrelatedExcType] handlerB
      (register_exception_handler [BaseExcType] handlerA []))

/-! ## Shared registry helper lemmas -/

/-- Registering `h` for class `T` makes the exact-class fast path of
`get_exception_handler` return `h` on any instance of `T`, whatever the
earlier registry contents. -/
theorem get_exact_after_register (reg₀ : Registry) (T : ExcType) (h : Handler)
    (e : ExcInstance) (he : e.cls = T) :
    get_exception_handler (register_exception_handler [T] h reg₀) (.inst e) = some h := by
  have hr : register_exception_handler [T] h reg₀ = dictInsert reg₀ T h := rfl
  simp [get_exception_handler, exc_class, hr, he, find?_dictInsert_self]

/-! ## Claim C1 -/

/-- C1, as stated, is false on the code: with `Base ↦ resolverBase`
(`handlerA`, id 1) registered before `Specific ↦ resolverSpecific`
(`handlerB`, id 2), resolving a raised instance of `Specific` hits the
exact-class fast path and returns resolverSpecific (id 2), not the
first-registered ancestor resolverBase (id 1). -/
theorem c1_counterexample :
    (get_exception_handler c1_registry (.inst specificInstance)).map Handler.id = some 2
    ∧ (get_exception_handler c1_registry (.inst specificInstance)).map Handler.id ≠ some 1 :=
  ⟨rfl, by decide⟩

/-- C1 (amended): with `Base ↦ resolverBase` registered before
`Specific ↦ resolverSpecific`, resolving a raised instance of `Specific`
itself returns resolverSpecific through the exact-class fast path;
the first-registered-ancestor rule shows only for exception classes with
no exact entry: a raised instance of a proper subclass of `Specific`
(itself unregistered) resolves to resolverBase, the first-registered
ancestor, not to resolverSpecific. -/
theorem c1_amended :
    (∀ (hB hS : Handler) (B S : ExcType) (e : ExcInstance),
      e.cls = S →
      get_exception_handler
        (register_exception_handler [S] hS (register_exception_handler [B] hB []))
        (.inst e) = some hS)
    ∧ (∀ (hB hS : Handler) (B S : ExcType) (e : ExcInstance),
      B ≠ S → e.cls ≠ B → e.cls ≠ S →
      issubclass e.cls B = true → issubclass e.cls S = true →
      get_exception_handler
        (register_exception_handler [S] hS (register_exception_handler [B] hB []))
        (.inst e) = some hB) := by
  constructor
  · intro hB hS B S e he
    exact get_exact_after_register _ S hS e he
  · intro hB hS B S e hBS heB heS hsubB hsubS
    have hBSb : (B == S) = false := beq_eq_false_iff_ne.2 hBS
    have hBe : (B == e.cls) = false := beq_eq_false_iff_ne.2 (fun h => heB h.symm)
    have hSe : (S == e.cls) = false := beq_eq_false_iff_ne.2 (fun h => heS h.symm)
    simp [register_exception_handler, dictInsert, hBSb, get_exception_handler, exc_class,
      List.find?, hBe, hSe, get_handler_loop, isinstance_chk, hsubB]

/-- Witness for C1 (amended), on the C1 scenario: the `Specific` instance
resolves to `handlerB` (resolverSpecific), while a `SubSpecific` instance
resolves to `handlerA` (resolverBase). -/
theorem c1_amended_witness :
    specificInstance.cls = SpecificExcType
    ∧ get_exception_handler
        (register_exception_handler [SpecificExcType] handlerB
          (register_exception_handler [BaseExcType] handlerA []))
        (.inst specificInstance) = some handlerB
    ∧ issubclass subSpecificInstance.cls BaseExcType = true
    ∧ issubclass subSpecificInstance.cls SpecificExcType = true
    ∧ get_exception_handler
        (register_exception_handler [SpecificExcType] handlerB
          (register_exception_handler [BaseExcType] handlerA []))
        (.inst subSpecificInstance) = some handlerA :=
  ⟨rfl,
    c1_amended.1 handlerA handlerB BaseExcType SpecificExcType specificInstance rfl,
    by decide, by decide,
    c1_amended.2 handlerA handlerB BaseExcType SpecificExcType subSpecificInstance
      (by decide) (by decide) (by decide) (by decide) (by decide)⟩

/-! ## Claim C2 -/

/-- C2: a most-recent registration for the exception's exact class is
returned through the fast path, whatever else the registry holds; with no
exact entry, resolution returns the first insertion-order entry whose class
the instance matches, and `none` when no entry matches. -/
theorem c2_resolution :
    (∀ (reg₀ : Registry) (T : ExcType) (h : Handler) (e : ExcInstance),
      e.cls = T →
      get_exception_handler (register_exception_handler [T] h reg₀) (.inst e) = some h)
    ∧ (∀ (reg : Registry) (e : ExcInstance),
      reg.find? (fun p => p.1 == e.cls) = Option.none →
      get_exception_handler reg (.inst e)
        = (reg.find? (fun p => issubclass e.cls p.1)).map Prod.snd) := by
  constructor
  · intro reg₀ T h e he
    exact get_exact_after_register reg₀ T h e he
  · intro reg e hnone
    simp [get_exception_handler, exc_class, hnone, get_handler_loop_inst_eq_find?]

/-- Witness for C2: re-registering `Specific` over a stale entry makes an
instance of `Specific` resolve to the newer resolver; and on a registry
with no `SubSpecific` entry, a `SubSpecific` instance resolves to the first
insertion-order ancestor entry. -/
theorem c2_resolution_witness :
    specificInstance.cls = SpecificExcType
    ∧ get_exception_handler
        (register_exception_handler [SpecificExcType] handlerC
          [(SpecificExcType, handlerA), (BaseExcType, handlerB)])
        (.inst specificInstance) = some handlerC
    ∧ ([(BaseExcType, handlerA), (SpecificExcType, handlerB)] : Registry).find?
        (fun p => p.1 == subSpecificInstance.cls) = Option.none
    ∧ get_exception_handler [(BaseExcType, handlerA), (SpecificExcType, handlerB)]
        (.inst subSpecificInstance)
      = (([(BaseExcType, handlerA), (SpecificExcType, handlerB)] : Registry).find?
          (fun p => issubclass subSpecificInstance.cls p.1)).map Prod.snd :=
  ⟨rfl,
    c2_resolution.1 [(SpecificExcType, handlerA), (BaseExcType, handlerB)]
      SpecificExcType handlerC specificInstance rfl,
    rfl,
    c2_resolution.2 [(BaseExcType, handlerA), (SpecificExcType, handlerB)]
      subSpecificInstance rfl⟩

/-! ## Claim C7 -/

/-- C7, as stated, is false on the code: after registering `Base ↦ handlerA`,
`Unrelated ↦ handlerB` and then re-registering `Base ↦ handlerC`, the single
dict holds two records, not three — the first `Base` record was replaced in
place (its value is now `handlerC`), it did not remain alongside the new
one. -/
theorem c7_counterexample :
    c7_registry.map (fun p => (p.1.name, p.2.id)) = [("Base", 3), ("Unrelated", 2)]
    ∧ c7_registry.length ≠ 3 :=
  ⟨rfl, by decide⟩

/-- C7 (amended): re-registering class `T` overwrites the single registry
record for `T` in place — exact lookup (and `get_exception_handler` on an
instance of `T`) yields the newer resolver, while the key sequence, hence
each entry's insertion position and the entry count, is unchanged; entries
are never removed. -/
theorem c7_amended :
    ∀ (reg₀ : Registry) (T : ExcType) (r1 r2 : Handler) (e : ExcInstance),
      e.cls = T →
      (register_exception_handler [T] r2 (register_exception_handler [T] r1 reg₀)).find?
          (fun p => p.1 == T) = some (T, r2)
      ∧ get_exception_handler
          (register_exception_handler [T] r2 (register_exception_handler [T] r1 reg₀))
          (.inst e) = some r2
      ∧ (register_exception_handler [T] r2 (register_exception_handler [T] r1 reg₀)).map
          Prod.fst = (register_exception_handler [T] r1 reg₀).map Prod.fst := by
  intro reg₀ T r1 r2 e he
  refine ⟨find?_dictInsert_self _ T r2, get_exact_after_register _ T r2 e he, ?_⟩
  exact keys_dictInsert_of_mem r2 (any_dictInsert_self reg₀ T r1)

/-- Witness for C7 (amended): re-registering `Base` from `handlerA` to
`handlerB` over an empty initial registry. -/
theorem c7_amended_witness :
    baseInstance.cls = BaseExcType
    ∧ (register_exception_handler [BaseExcType] handlerB
        (register_exception_handler [BaseExcType] handlerA [])).find?
        (fun p => p.1 == BaseExcType) = some (BaseExcType, handlerB)
    ∧ get_exception_handler
        (register_exception_handler [BaseExcType] handlerB
          (register_exception_handler [BaseExcType] handlerA []))
        (.inst baseInstance) = some handlerB
    ∧ (register_exception_handler [BaseExcType] handlerB
        (register_exception_handler [BaseExcType] handlerA [])).map Prod.fst
      = (register_exception_handler [BaseExcType] handlerA []).map Prod.fst :=
  ⟨rfl,
    (c7_amended [] BaseExcType handlerA handlerB baseInstance rfl).1,
    (c7_amended [] BaseExcType handlerA handlerB baseInstance rfl).2.1,
    (c7_amended [] BaseExcType handlerA handlerB baseInstance rfl).2.2⟩

/-! ## Dispatch helper lemmas -/

/-- With no resolver for the exception, `_handle_method_exceptions` falls
back to the synthesized 500 body `{code: 500, message: str(exception)}`. -/
theorem handle_exceptions_unregistered (rid : String) (reg : Registry) (e : ExcInstance)
    (h : get_exception_handler reg (.inst e) = Option.none) :
    _handle_method_exceptions rid reg e
      = Except.ok
          { status := Val.int 500,
            body := Val.dict [("code", Val.int 500), ("message", Val.str e.msg)],
            headers := [("x-cross-request-id", rid)] } := by
  simp [_handle_method_exceptions, h, make_response_json]

/-- A quiet finally block appends the after-hook calls and keeps the
protected region's result. -/
theorem method_finally_of_after_ok (ep : SanicEndpoint) (request : Request)
    (tr : List CallEvent × Except DispatchError Response)
    (ha : (_after_method ep request).2 = Option.none) :
    method_finally ep request tr = (tr.1 ++ (_after_method ep request).1, tr.2) := by
  rcases hA : _after_method ep request with ⟨aevts, ares⟩
  rw [hA] at ha
  simp only [Prod.snd] at ha
  subst ha
  simp [method_finally, hA]

/-- A raising finally block appends the after-hook calls made and replaces
the pending result by the propagating after-hook exception. -/
theorem method_finally_of_after_raise (ep : SanicEndpoint) (request : Request)
    (tr : List CallEvent × Except DispatchError Response) (e2 : ExcInstance)
    (ha : (_after_method ep request).2 = some e2) :
    method_finally ep request tr
      = (tr.1 ++ (_after_method ep request).1,
         Except.error (DispatchError.afterHook e2)) := by
  rcases hA : _after_method ep request with ⟨aevts, ares⟩
  rw [hA] at ha
  simp only [Prod.snd] at ha
  subst ha
  simp [method_finally, hA]

/-- A raising before-hook sends the protected region straight to exception
handling; the verb handler is not called. -/
theorem method_protected_of_before_raise (rid : String) (reg : Registry)
    (ep : SanicEndpoint) (request : Request) (body : Body)
    (func : Request → Body → Except ExcInstance Response) (e : ExcInstance)
    (hb : (_before_method ep request body).2 = some e) :
    method_protected rid reg ep request body func
      = ((_before_method ep request body).1, _handle_method_exceptions rid reg e) := by
  rcases hB : _before_method ep request body with ⟨evts, bres⟩
  rw [hB] at hb
  simp only [Prod.snd] at hb
  subst hb
  simp [method_protected, hB]

/-- With quiet before-hooks and a raising verb handler, the protected region
routes the handler's exception to exception handling. -/
theorem method_protected_of_handler_raise (rid : String) (reg : Registry)
    (ep : SanicEndpoint) (request : Request) (body : Body)
    (func : Request → Body → Except ExcInstance Response) (e : ExcInstance)
    (hb : (_before_method ep request body).2 = Option.none)
    (hf : func request body = Except.error e) :
    method_protected rid reg ep request body func
      = ((_before_method ep request body).1 ++ [CallEvent.handlerCall request body],
         _handle_method_exceptions rid reg e) := by
  rcases hB : _before_method ep request body with ⟨evts, bres⟩
  rw [hB] at hb
  simp only [Prod.snd] at hb
  subst hb
  simp [method_protected, hB, hf]

/-- When the verb has a registered handler member, `_method` is the finally
block around the protected region. -/
theorem method_dispatch_of_find (rid : String) (reg : Registry) (ep : SanicEndpoint)
    (request : Request) (body : Body)
    (p : String × (Request → Body → Except ExcInstance Response))
    (hfind : ep.verb_handlers.find? (fun q => q.1 == strToLower request.method) = some p) :
    _method rid reg ep request body
      = method_finally ep request (method_protected rid reg ep request body p.2) := by
  simp [_method, hfind]

/-- Quiet after-hooks all run, in order, each receiving only the request. -/
theorem after_method_go_all_none (request : Request) :
    ∀ (l : List (Request → Option ExcInstance)) (i : Nat),
      (∀ f ∈ l, f request = Option.none) →
      after_method_go request i l
        = ((List.range l.length).map (fun j => CallEvent.afterCall (i + j) request),
           Option.none) := by
  intro l
  induction l with
  | nil => intro i _; simp [after_method_go]
  | cons f rest ih =>
    intro i h
    have hf : f request = Option.none := h f (List.mem_cons_self f rest)
    have hrest : ∀ g ∈ rest, g request = Option.none :=
      fun g hg => h g (List.mem_cons_of_mem f hg)
    have harith : (fun j => CallEvent.afterCall (i + 1 + j) request)
        = fun j => CallEvent.afterCall (i + (j + 1)) request := by
      funext j
      congr 1
      omega
    simp [after_method_go, hf, ih (i + 1) hrest, List.range_succ_eq_map,
      List.map_map, harith, Function.comp]

/-! ## Fixture endpoints and requests -/

/-- A plain GET request with no payload sources. -/
def reqGet : Request :=
  { method := "GET", content_type := "text/plain", match_info := Option.none,
    json := Option.none, args := Option.none, files := Option.none,
    form := Option.none, headers := [] }

/-- The same request with an unhandled verb. -/
def reqDelete : Request := { reqGet with method := "DELETE" }

/-- A canned successful response. -/
def respOk : Response := { status := Val.int 200, body := Val.str "ok", headers := [] }

/-- A verb handler that succeeds. -/
def handler_ok : Request → Body → Except ExcInstance Response :=
  fun _ _ => Except.ok respOk

/-- A verb handler that raises a `Base` exception. -/
def handler_raise_base : Request → Body → Except ExcInstance Response :=
  fun _ _ => Except.error baseInstance

/-- A before-hook that succeeds. -/
def before_none : Request → Body → Option ExcInstance := fun _ _ => Option.none

/-- A before-hook that raises a `Base` exception. -/
def before_raise_base : Request → Body → Option ExcInstance := fun _ _ => some baseInstance

/-- An after-hook that succeeds. -/
def after_none : Request → Option ExcInstance := fun _ => Option.none

/-- A second, distinct after-hook that succeeds. -/
def after_none2 : Request → Option ExcInstance := fun r => (fun _ => Option.none) r

/-- An after-hook that raises a `Base` exception. -/
def after_raise_base : Request → Option ExcInstance := fun _ => some baseInstance

/-- An endpoint whose GET handler raises, with no hooks. -/
def ep_handler_raises : SanicEndpoint :=
  { verb_handlers := [("get", handler_raise_base)], before_methods := [],
    after_methods := [] }

/-- An endpoint whose before-hook raises. -/
def ep_before_raises : SanicEndpoint :=
  { verb_handlers := [("get", handler_ok)], before_methods := [before_raise_base],
    after_methods := [] }

/-- A quiet endpoint with two succeeding after-hooks. -/
def ep_quiet : SanicEndpoint :=
  { verb_handlers := [("get", handler_ok)], before_methods := [before_none],
    after_methods := [after_none, after_none2] }

/-- An endpoint whose after-hook raises. -/
def ep_after_raises : SanicEndpoint :=
  { verb_handlers := [("get", handler_ok)], before_methods := [],
    after_methods := [after_raise_base] }

/-! ## Claim C3 -/

/-- C3: whenever resolution picks the pre-registered `_sanic_exceptions`
resolver, `_handle_method_exceptions` raises the tuple-unpacking error
(its 3-tuple cannot fill `code, error_code, message, data`) instead of
returning a response. -/
theorem c3_sanic_resolver_unpack :
    ∀ (rid : String) (reg : Registry) (e : ExcInstance),
      get_exception_handler reg (.inst e) = some _sanic_exceptions →
      _handle_method_exceptions rid reg e = Except.error (DispatchError.unpack 3) := by
  intro rid reg e h
  simp [_handle_method_exceptions, h, _sanic_exceptions]

/-- Witness for C3: a raised `SanicException` under the registry as it
stands after importing `exceptions.py`. -/
theorem c3_sanic_resolver_unpack_witness :
    get_exception_handler _exception_handlers (.inst sanicInstance) = some _sanic_exceptions
    ∧ _handle_method_exceptions "req-1" _exception_handlers sanicInstance
        = Except.error (DispatchError.unpack 3) :=
  ⟨rfl, c3_sanic_resolver_unpack "req-1" _exception_handlers sanicInstance rfl⟩

/-! ## Claim C4 -/

/-- C4: an exception raised by the verb handler (first conjunct) or by a
before-hook (second conjunct) that the registry does not resolve makes the
dispatch return the generic JSON error response: HTTP status 500, body
`{code: 500, message: str(exception)}`, no data payload. -/
theorem c4_unregistered_fallback :
    (∀ (rid : String) (reg : Registry) (ep : SanicEndpoint) (request : Request)
      (body : Body) (e : ExcInstance)
      (p : String × (Request → Body → Except ExcInstance Response)),
      get_exception_handler reg (.inst e) = Option.none →
      ep.verb_handlers.find? (fun q => q.1 == strToLower request.method) = some p →
      (_before_method ep request body).2 = Option.none →
      p.2 request body = Except.error e →
      (_after_method ep request).2 = Option.none →
      (_method rid reg ep request body).2
        = Except.ok
            { status := Val.int 500,
              body := Val.dict [("code", Val.int 500), ("message", Val.str e.msg)],
              headers := [("x-cross-request-id", rid)] })
    ∧ (∀ (rid : String) (reg : Registry) (ep : SanicEndpoint) (request : Request)
      (body : Body) (e : ExcInstance)
      (p : String × (Request → Body → Except ExcInstance Response)),
      get_exception_handler reg (.inst e) = Option.none →
      ep.verb_handlers.find? (fun q => q.1 == strToLower request.method) = some p →
      (_before_method ep request body).2 = some e →
      (_after_method ep request).2 = Option.none →
      (_method rid reg ep request body).2
        = Except.ok
            { status := Val.int 500,
              body := Val.dict [("code", Val.int 500), ("message", Val.str e.msg)],
              headers := [("x-cross-request-id", rid)] }) := by
  constructor
  · intro rid reg ep request body e p hget hfind hb hf ha
    rw [method_dispatch_of_find rid reg ep request body p hfind,
      method_finally_of_after_ok ep request _ ha,
      method_protected_of_handler_raise rid reg ep request body p.2 e hb hf]
    simp [handle_exceptions_unregistered rid reg e hget]
  · intro rid reg ep request body e p hget hfind hb ha
    rw [method_dispatch_of_find rid reg ep request body p hfind,
      method_finally_of_after_ok ep request _ ha,
      method_protected_of_before_raise rid reg ep request body p.2 e hb]
    simp [handle_exceptions_unregistered rid reg e hget]

/-- Witness for C4: under an empty registry, a GET whose handler raises
`Base` (and, separately, one whose before-hook raises `Base`) answers the
synthesized 500 response. -/
theorem c4_unregistered_fallback_witness :
    get_exception_handler [] (.inst baseInstance) = Option.none
    ∧ ep_handler_raises.verb_handlers.find? (fun q => q.1 == strToLower reqGet.method)
        = some ("get", handler_raise_base)
    ∧ (_before_method ep_handler_raises reqGet []).2 = Option.none
    ∧ handler_raise_base reqGet [] = Except.error baseInstance
    ∧ (_after_method ep_handler_raises reqGet).2 = Option.none
    ∧ (_method "req-2" [] ep_handler_raises reqGet []).2
        = Except.ok
            { status := Val.int 500,
              body := Val.dict [("code", Val.int 500),
                ("message", Val.str baseInstance.msg)],
              headers := [("x-cross-request-id", "req-2")] }
    ∧ (_before_method ep_before_raises reqGet []).2 = some baseInstance
    ∧ (_method "req-3" [] ep_before_raises reqGet []).2
        = Except.ok
            { status := Val.int 500,
              body := Val.dict [("code", Val.int 500),
                ("message", Val.str baseInstance.msg)],
              headers := [("x-cross-request-id", "req-3")] } :=
  ⟨rfl, rfl, rfl, rfl, rfl,
    c4_unregistered_fallback.1 "req-2" [] ep_handler_raises reqGet [] baseInstance
      ("get", handler_raise_base) rfl rfl rfl rfl rfl,
    rfl,
    c4_unregistered_fallback.2 "req-3" [] ep_before_raises reqGet [] baseInstance
      ("get", handler_ok) rfl rfl rfl rfl⟩

/-! ## Claim C5 -/

/-- C5: when the verb has a handler, (1) quiet after-hooks all run in
registration order, each call receiving only the request; (2) on every path
— handler success, before-hook raise, handler raise — the after-hook calls
close the dispatch's call trace; (3) an exception raised by an after-hook
propagates to the caller uncaught, not routed through the registry. -/
theorem c5_after_hooks :
    (∀ (ep : SanicEndpoint) (request : Request),
      (∀ f ∈ ep.after_methods, f request = Option.none) →
      _after_method ep request
        = ((List.range ep.after_methods.length).map
            (fun i => CallEvent.afterCall i request), Option.none))
    ∧ (∀ (rid : String) (reg : Registry) (ep : SanicEndpoint) (request : Request)
      (body : Body) (p : String × (Request → Body → Except ExcInstance Response)),
      ep.verb_handlers.find? (fun q => q.1 == strToLower request.method) = some p →
      List.IsSuffix (_after_method ep request).1 (_method rid reg ep request body).1)
    ∧ (∀ (rid : String) (reg : Registry) (ep : SanicEndpoint) (request : Request)
      (body : Body) (p : String × (Request → Body → Except ExcInstance Response))
      (e2 : ExcInstance),
      ep.verb_handlers.find? (fun q => q.1 == strToLower request.method) = some p →
      (_after_method ep request).2 = some e2 →
      (_method rid reg ep request body).2
        = Except.error (DispatchError.afterHook e2)) := by
  refine ⟨?_, ?_, ?_⟩
  · intro ep request h
    have h0 := after_method_go_all_none request ep.after_methods 0 h
    have hz : (fun j => CallEvent.afterCall (0 + j) request)
        = fun j => CallEvent.afterCall j request := by
      funext j
      congr 1
      omega
    rw [hz] at h0
    exact h0
  · intro rid reg ep request body p hfind
    rw [method_dispatch_of_find rid reg ep request body p hfind]
    rcases hA : _after_method ep request with ⟨aevts, ares⟩
    cases ares with
    | none =>
      rw [method_finally_of_after_ok ep request _ (by rw [hA]), hA]
      exact List.suffix_append _ _
    | some e2 =>
      rw [method_finally_of_after_raise ep request _ e2 (by rw [hA]), hA]
      exact List.suffix_append _ _
  · intro rid reg ep request body p e2 hfind ha
    rw [method_dispatch_of_find rid reg ep request body p hfind,
      method_finally_of_after_raise ep request _ e2 ha]

/-- Witness for C5: the quiet endpoint runs both after-hooks in order on a
successful GET; the endpoint with a raising after-hook turns the dispatch
into an uncaught propagated exception. -/
theorem c5_after_hooks_witness :
    (∀ f ∈ ep_quiet.after_methods, f reqGet = Option.none)
    ∧ _after_method ep_quiet reqGet
        = ((List.range ep_quiet.after_methods.length).map
            (fun i => CallEvent.afterCall i reqGet), Option.none)
    ∧ ep_quiet.verb_handlers.find? (fun q => q.1 == strToLower reqGet.method)
        = some ("get", handler_ok)
    ∧ List.IsSuffix (_after_method ep_quiet reqGet).1
        (_method "req-4" [] ep_quiet reqGet []).1
    ∧ (_after_method ep_after_raises reqGet).2 = some baseInstance
    ∧ (_method "req-5" [] ep_after_raises reqGet []).2
        = Except.error (DispatchError.afterHook baseInstance) := by
  have hall : ∀ f ∈ ep_quiet.after_methods, f reqGet = Option.none := by
    intro f hf
    simp only [ep_quiet, List.mem_cons, List.not_mem_nil, or_false] at hf
    rcases hf with rfl | rfl <;> rfl
  exact ⟨hall, c5_after_hooks.1 ep_quiet reqGet hall, rfl,
    c5_after_hooks.2.1 "req-4" [] ep_quiet reqGet [] ("get", handler_ok) rfl, rfl,
    c5_after_hooks.2.2 "req-5" [] ep_after_raises reqGet [] ("get", handler_ok)
      baseInstance rfl rfl⟩

/-! ## Claim C6 -/

/-- C6: a request whose lower-cased method has no `method_<verb>` member is
answered with the 405 "Method Not Allowed" JSON response, and the call
trace is empty — no before-hook and no after-hook ran. -/
theorem c6_method_not_allowed :
    ∀ (rid : String) (reg : Registry) (ep : SanicEndpoint) (request : Request)
      (body : Body),
      ep.verb_handlers.find? (fun p => p.1 == strToLower request.method) = Option.none →
      _method rid reg ep request body
        = ([],
           Except.ok
             { status := Val.int 405,
               body := Val.dict [("code", Val.int 405),
                 ("message", Val.str "Method Not Allowed")],
               headers := [("x-cross-request-id", rid)] }) := by
  intro rid reg ep request body hfind
  simp [_method, hfind, make_response_json]

/-- Witness for C6: a DELETE against an endpoint exposing only GET. -/
theorem c6_method_not_allowed_witness :
    ep_quiet.verb_handlers.find? (fun p => p.1 == strToLower reqDelete.method) = Option.none
    ∧ _method "req-6" [] ep_quiet reqDelete []
        = ([],
           Except.ok
             { status := Val.int 405,
               body := Val.dict [("code", Val.int 405),
                 ("message", Val.str "Method Not Allowed")],
               headers := [("x-cross-request-id", "req-6")] }) :=
  ⟨rfl, c6_method_not_allowed "req-6" [] ep_quiet reqDelete [] rfl⟩

/-! ## Claim C8 -/

/-- C8: on a POST with a JSON content type, JSON body `{id: "2"}` and any
non-empty query-argument multimap (all other sources absent), the
aggregated body — before the caller appends `auth` — is exactly
`{id: "2"}`: the query arguments are skipped because the method is POST,
while the JSON body is merged. -/
theorem c8_post_json_aggregation :
    ∀ (ct : String) (qargs : List (String × Val)),
      strContains ct "application/json" = true →
      qargs ≠ [] →
      aggregate_body
        { method := "POST", content_type := ct, match_info := Option.none,
          json := some [("id", Val.str "2")], args := some qargs,
          files := Option.none, form := Option.none, headers := [] }
        = [("id", Val.str "2")] := by
  intro ct qargs hct hq
  simp [aggregate_body, import_body_match_info, import_body_json, import_body_args,
    import_body_files, import_body_form, import_body_headers, hct, dictUpdate,
    dictInsert]

/-- Witness for C8: a concrete JSON content type and a concrete non-empty
query-argument multimap. -/
theorem c8_post_json_aggregation_witness :
    strContains "application/json; charset=utf-8" "application/json" = true
    ∧ ([("tag", Val.list [Val.str "3"])] : List (String × Val)) ≠ []
    ∧ aggregate_body
        { method := "POST", content_type := "application/json; charset=utf-8",
          match_info := Option.none, json := some [("id", Val.str "2")],
          args := some [("tag", Val.list [Val.str "3"])],
          files := Option.none, form := Option.none, headers := [] }
        = [("id", Val.str "2")] :=
  ⟨rfl, List.cons_ne_nil _ _,
    c8_post_json_aggregation "application/json; charset=utf-8"
      [("tag", Val.list [Val.str "3"])] rfl (List.cons_ne_nil _ _)⟩

/-! ## Claim C9 -/

/-- C9: over unique keys, the collapsing step rebuilds the mapping entry by
entry in order, replacing each value that is a list of length exactly 1 by
its single element and keeping every other value — lists of length 0, 2 or
more, and non-list values — unchanged (`collapse_single` is that step,
verbatim from the source). -/
theorem c9_scalar_collapsing :
    ∀ params : List (String × Val),
      (params.map Prod.fst).Nodup →
      params_from_dictparams params
        = params.map (fun p => (p.1, collapse_single p.2)) := by
  intro params hnd
  have h := foldl_dictInsert_eq_map (fun p : String × Val => collapse_single p.2)
    params [] (by simpa using hnd)
  simpa [params_from_dictparams] using h

/-- Witness for C9: `{tag: ["x"]}` collapses to `{tag: "x"}` while
`{tags: ["x","y"]}`, a bare scalar and an empty list stay unchanged. -/
theorem c9_scalar_collapsing_witness :
    (([("tag", Val.list [Val.str "x"]), ("tags", Val.list [Val.str "x", Val.str "y"]),
      ("plain", Val.str "p"), ("empty", Val.list [])] : List (String × Val)).map
        Prod.fst).Nodup
    ∧ params_from_dictparams
        [("tag", Val.list [Val.str "x"]), ("tags", Val.list [Val.str "x", Val.str "y"]),
          ("plain", Val.str "p"), ("empty", Val.list [])]
      = ([("tag", Val.list [Val.str "x"]), ("tags", Val.list [Val.str "x", Val.str "y"]),
          ("plain", Val.str "p"), ("empty", Val.list [])].map
            (fun p => (p.1, collapse_single p.2)))
    ∧ collapse_single (Val.list [Val.str "x"]) = Val.str "x"
    ∧ collapse_single (Val.list [Val.str "x", Val.str "y"])
        = Val.list [Val.str "x", Val.str "y"] :=
  ⟨by decide,
    c9_scalar_collapsing
      [("tag", Val.list [Val.str "x"]), ("tags", Val.list [Val.str "x", Val.str "y"]),
        ("plain", Val.str "p"), ("empty", Val.list [])] (by decide),
    rfl, rfl⟩

/-! ## Claim C10 -/

/-- A first multipart file fixture. -/
def fileA : FileItem := { type := "text/plain", body := "abc", name := "a.txt" }

/-- A second multipart file fixture. -/
def fileB : FileItem := { type := "image/png", body := "xyz", name := "b.png" }

/-- A files multimap with a list-valued key and a non-list-valued key. -/
def c10_files : List (String × FilesVal) :=
  [("docs", FilesVal.list [fileA, fileB]), ("solo", FilesVal.single fileA)]

/-- A request carrying `c10_files`. -/
def reqFiles : Request := { reqGet with files := some c10_files }

/-- C10: over unique keys, a non-empty files multimap aggregates each
list-valued key to its items projected to `{type, body, name}` and each
non-list-valued key to the entire raw files multimap (`file_entry_val` is
that per-key branch, verbatim from the source); an empty or absent files
multimap contributes nothing. -/
theorem c10_files_import :
    (∀ (request : Request) (fs : List (String × FilesVal)),
      request.files = some fs →
      fs ≠ [] →
      (fs.map Prod.fst).Nodup →
      import_body_files request = fs.map (fun p => (p.1, file_entry_val fs p.2)))
    ∧ (∀ request : Request,
      request.files = some [] ∨ request.files = Option.none →
      import_body_files request = []) := by
  constructor
  · intro request fs hfs hne hnd
    have hlen : fs.length > 0 := List.length_pos.2 hne
    have h := foldl_dictInsert_eq_map (fun p : String × FilesVal => file_entry_val fs p.2)
      fs [] (by simpa using hnd)
    simp [import_body_files, hfs, hlen, h]
  · intro request h
    rcases h with h | h <;> simp [import_body_files, h]

/-- Witness for C10: on `reqFiles`, the `docs` key is projected item-wise
while the `solo` key points at the whole raw multimap; `reqGet` (absent
files) contributes nothing. -/
theorem c10_files_import_witness :
    reqFiles.files = some c10_files
    ∧ c10_files ≠ []
    ∧ (c10_files.map Prod.fst).Nodup
    ∧ import_body_files reqFiles
        = c10_files.map (fun p => (p.1, file_entry_val c10_files p.2))
    ∧ reqGet.files = Option.none
    ∧ import_body_files reqGet = [] :=
  ⟨rfl, List.cons_ne_nil _ _, by decide,
    c10_files_import.1 reqFiles c10_files rfl (List.cons_ne_nil _ _) (by decide),
    rfl,
    c10_files_import.2 reqGet (Or.inr rfl)⟩
